import Mathlib

/-!
Verification of the SUR notation engine (sur-cli parser/models and the
surmaker composition builder) against its natural-language specification.
The definitions below are a shallow embedding of the Python sources:
`sur/models.py`, `sur/parser.py` and `surmaker-cli.py`.  Python strings are
Lean `String`s (manipulated through their `List Char` data where the Python
code uses `split`/`strip`-style operations), Python exceptions are modelled
with `Except String`, and Python `dict`s (insertion ordered) are association
lists with in-place update.
-/

/- ## Python string primitives

Executable counterparts of the Python string operations the sources use,
written as structural recursion over the character data so that concrete
computations reduce inside the kernel. -/

/-- Python `sep.join(items)`. -/
def joinSep (sep : String) : List String → String
  | [] => ""
  | [s] => s
  | s :: rest => s ++ sep ++ joinSep sep rest

/-- Python `str.strip()`: drop leading and trailing whitespace. -/
def pyStrip (s : String) : String :=
  String.mk (((s.data.dropWhile Char.isWhitespace).reverse.dropWhile
    Char.isWhitespace).reverse)

/-- Python `str.startswith(pat)`. -/
def pyStartsWith (s pat : String) : Bool :=
  pat.data.isPrefixOf s.data

/-- Python `c in s` for a single character. -/
def pyContainsChar (s : String) (c : Char) : Bool :=
  s.data.contains c

/-- One pass of Python `str.replace(pat, repl)` with fuel (the pattern is
never empty here; every step consumes at least one character). -/
def pyReplaceAux (pat repl : List Char) : Nat → List Char → List Char
  | 0, cs => cs
  | _ + 1, [] => []
  | fuel + 1, c :: cs =>
    if pat.isPrefixOf (c :: cs) then
      repl ++ pyReplaceAux pat repl fuel ((c :: cs).drop pat.length)
    else
      c :: pyReplaceAux pat repl fuel cs

/-- Python `str.replace(pat, repl)` for a non-empty pattern. -/
def pyReplace (s pat repl : String) : String :=
  String.mk (pyReplaceAux pat.data repl.data s.data.length s.data)

/-- Python `str.split()` (no argument): maximal whitespace-separated words. -/
def pyWordsAux : List Char → List Char → List (List Char)
  | [], acc => if acc.isEmpty then [] else [acc.reverse]
  | c :: cs, acc =>
    if c.isWhitespace then
      if acc.isEmpty then pyWordsAux cs [] else acc.reverse :: pyWordsAux cs []
    else
      pyWordsAux cs (c :: acc)

/-- Python `str.split()` as a list of strings. -/
def pySplitWs (s : String) : List String :=
  (pyWordsAux s.data []).map String.mk

/-- Python `str.lower()` (ASCII inputs). -/
def pyLower (s : String) : String :=
  String.mk (s.data.map Char.toLower)

/- ## Data model (sur/models.py) -/

/-- `NotePitch` enum: the seven pitches plus SILENCE ("-") and SUSTAIN ("*"). -/
inductive NotePitch where
  | S | R | G | M | P | D | N
  | SILENCE
  | SUSTAIN
deriving DecidableEq, Repr

/-- The `value` string of each `NotePitch` enum member. -/
def NotePitch.val : NotePitch → String
  | .S => "S" | .R => "R" | .G => "G" | .M => "M"
  | .P => "P" | .D => "D" | .N => "N"
  | .SILENCE => "-"
  | .SUSTAIN => "*"

/-- `NoteVariant` enum (carried in the model, unused by parsing). -/
inductive NoteVariant where
  | SHUDHA | KOMAL | TIVRA
deriving DecidableEq, Repr

/-- `ElementType` enum. -/
inductive ElementType where
  | NORMAL | SEPARATOR | OPEN_BRACKET | CLOSE_BRACKET
deriving DecidableEq, Repr

/-- `Note` dataclass: pitch, octave (0 = middle), optional variant. -/
structure Note where
  pitch : NotePitch
  octave : Int := 0
  variant : Option NoteVariant := none
deriving DecidableEq, Repr

/-- `Note.__str__`: SILENCE/SUSTAIN render as their value; otherwise the pitch
letter followed by `'` times the octave (if positive) or `,` times its
absolute value (if negative). -/
def noteStr (n : Note) : String :=
  match n.pitch with
  | .SILENCE => NotePitch.SILENCE.val
  | .SUSTAIN => NotePitch.SUSTAIN.val
  | p =>
    if n.octave > 0 then
      p.val ++ String.mk (List.replicate n.octave.toNat '\'')
    else if n.octave < 0 then
      p.val ++ String.mk (List.replicate (-n.octave).toNat ',')
    else
      p.val

/-- `Element` dataclass: optional lyrics, optional note, structural tag. -/
structure Element where
  lyrics : Option String := none
  note : Option Note := none
  type : ElementType := ElementType.NORMAL
deriving DecidableEq, Repr

/-- `Element.format_lyrics`: `None` for missing/empty lyrics (Python
falsiness); quotes added when forced or when the lyrics contain a space. -/
def formatLyrics (e : Element) (forceQuotes : Bool) : Option String :=
  match e.lyrics with
  | none => none
  | some l =>
    if l = "" then none
    else if forceQuotes || pyContainsChar l ' ' then some ("\"" ++ l ++ "\"")
    else some l

/-- `Element.__str__`: `lyrics:note` (lyrics force-quoted) when both are
present, else the lyrics, else the note, else the empty string. -/
def elementStr (e : Element) : String :=
  match e.lyrics, e.note with
  | some l, some n =>
    if l = "" then noteStr n
    else ((formatLyrics e true).getD "") ++ ":" ++ noteStr n
  | some l, none =>
    if l = "" then ""
    else (formatLyrics e false).getD ""
  | none, some n => noteStr n
  | none, none => ""

/-- `Beat` dataclass: elements plus the `bracketed` flag. -/
structure Beat where
  elements : List Element := []
  bracketed : Bool := false
deriving DecidableEq, Repr

/-- `Beat.__str__`: empty list renders `""`; a single element renders as that
element's string (regardless of `bracketed`); otherwise the non-empty element
strings are joined with `" "` and wrapped in `[...]` when `bracketed`, or
joined with `""` and left bare when not. -/
def beatStr (b : Beat) : String :=
  match b.elements with
  | [] => ""
  | [e] => elementStr e
  | es =>
    let strs := (es.map elementStr).filter (fun s => s != "")
    let joined := joinSep (if b.bracketed then " " else "") strs
    if b.bracketed then "[" ++ joined ++ "]" else joined

/-- `Section` dataclass: title and beats. -/
structure SurSection where
  title : String
  beats : List Beat := []
deriving DecidableEq, Repr

/-- `Section.__str__`: `#` + title, newline, beats joined by single spaces. -/
def sectionStr (s : SurSection) : String :=
  "#" ++ s.title ++ "\n" ++ joinSep " " (s.beats.map beatStr)

/-- `SURFile` dataclass: metadata dict, scale dict, list of sections. -/
structure SURFile where
  metadata : List (String × String) := []
  scale : List (String × String) := []
  composition : List SurSection := []
deriving DecidableEq, Repr

/-- `SURFile.__str__`: the section strings joined by newlines (the metadata
and scale dictionaries do not appear in the output). -/
def surFileStr (f : SURFile) : String :=
  joinSep "\n" (f.composition.map sectionStr)

/- ## Lexical scanner (SURParser._tokenize, sur/parser.py) -/

/-- Token kinds produced by the scanner, with the matched text where the
Python `Token` keeps a meaningful value. -/
inductive Token where
  | note (v : String)
  | lyrics (v : String)
  | colon
  | openB
  | closeB
  | sep (v : String)
deriving DecidableEq, Repr

/-- The seven pitch letters of the note regex character class `[SRGMPDN]`. -/
def pitchChars : List Char := ['S', 'R', 'G', 'M', 'P', 'D', 'N']

/-- Alternative 1 of the token regex: `"[^"]*"` (quotes stripped, LYRICS). -/
def matchQuoted : List Char → Option (Token × List Char)
  | '"' :: rest =>
    let body := rest.takeWhile (fun c => c != '"')
    match rest.drop body.length with
    | '"' :: rest' => some (Token.lyrics (String.mk body), rest')
    | _ => none
  | _ => none

/-- The `-` and `*` branches of the note regex alternation. -/
def matchDashStar : List Char → Option (Token × List Char)
  | '-' :: rest => some (Token.note "-", rest)
  | '*' :: rest => some (Token.note "*", rest)
  | _ => none

/-- Alternative 2 of the token regex: `(?:\.|,)*[SRGMPDN](?:'|,)*|-|\*`.
The leading marker run and trailing marker run are matched greedily; failed
backtracking into the marker runs cannot succeed because no marker character
is a pitch letter, so the greedy match is exact. -/
def matchNote (cs : List Char) : Option (Token × List Char) :=
  let preRun := cs.takeWhile (fun c => c == '.' || c == ',')
  match cs.drop preRun.length with
  | p :: rest2 =>
    if pitchChars.contains p then
      let sufRun := rest2.takeWhile (fun c => c == '\'' || c == ',')
      some (Token.note (String.mk (preRun ++ p :: sufRun)), rest2.drop sufRun.length)
    else matchDashStar cs
  | [] => matchDashStar cs

/-- Alternative 3 of the token regex: the symbols `[`, `]`, `:`. -/
def matchSymbol : List Char → Option (Token × List Char)
  | '[' :: rest => some (Token.openB, rest)
  | ']' :: rest => some (Token.closeB, rest)
  | ':' :: rest => some (Token.colon, rest)
  | _ => none

/-- Alternative 4 of the token regex: `\s+` (one collapsed SEPARATOR). -/
def matchSep (cs : List Char) : Option (Token × List Char) :=
  let ws := cs.takeWhile Char.isWhitespace
  if ws.isEmpty then none
  else some (Token.sep (String.mk ws), cs.drop ws.length)

/-- Alternative 5 of the token regex: `[a-zA-Z][a-zA-Z0-9]*` (bare LYRICS). -/
def matchMixed : List Char → Option (Token × List Char)
  | c :: rest =>
    if c.isAlpha then
      let tl := rest.takeWhile Char.isAlphanum
      some (Token.lyrics (String.mk (c :: tl)), rest.drop tl.length)
    else none
  | [] => none

/-- One attempt of the combined pattern at the current position: the five
alternatives are tried in the regex's fixed priority order. -/
def tryToken (cs : List Char) : Option (Token × List Char) :=
  (matchQuoted cs).orElse fun _ =>
  (matchNote cs).orElse fun _ =>
  (matchSymbol cs).orElse fun _ =>
  (matchSep cs).orElse fun _ =>
  matchMixed cs

/-- `re.finditer` driver: match at the current position or drop one
unrecognized character and continue.  Every successful match consumes at
least one character, so fuel equal to the input length suffices. -/
def tokenizeAux : Nat → List Char → List Token
  | 0, _ => []
  | _ + 1, [] => []
  | fuel + 1, c :: cs =>
    match tryToken (c :: cs) with
    | some (t, rest) => t :: tokenizeAux fuel rest
    | none => tokenizeAux fuel cs

/-- `SURParser._tokenize`. -/
def tokenize (s : String) : List Token :=
  tokenizeAux s.data.length s.data

/- ## Note parsing and element assembly (sur/parser.py) -/

/-- `NotePitch(text)` enum lookup by value. -/
def pitchOfString (s : String) : Option NotePitch :=
  if s = "S" then some .S
  else if s = "R" then some .R
  else if s = "G" then some .G
  else if s = "M" then some .M
  else if s = "P" then some .P
  else if s = "D" then some .D
  else if s = "N" then some .N
  else if s = "-" then some .SILENCE
  else if s = "*" then some .SUSTAIN
  else none

/-- `SURParser._parse_single_note`: empty text gives `None`; `-`/`*` give the
special pitches; otherwise trailing `'` are stripped (counted as +octave),
then trailing `,` (counted as -octave), and the remaining text must be a
pitch letter or a `ValueError` is raised. -/
def parseSingleNote (s : String) : Except String (Option Note) :=
  if s = "" then .ok none
  else if s = "-" then .ok (some { pitch := .SILENCE })
  else if s = "*" then .ok (some { pitch := .SUSTAIN })
  else
    let rev := s.data.reverse
    let ups := rev.takeWhile (fun c => c == '\'')
    let rev1 := rev.dropWhile (fun c => c == '\'')
    let downs := rev1.takeWhile (fun c => c == ',')
    let core := String.mk (rev1.dropWhile (fun c => c == ',')).reverse
    match pitchOfString core with
    | some p => .ok (some { pitch := p, octave := (ups.length : Int) - downs.length })
    | none => .error ("Invalid note pitch: " ++ core)

/-- `SURParser._tokens_to_elements`: separators/brackets pass through as
structural elements, a LYRICS-COLON-NOTE triple combines into one element,
a lone COLON is skipped, note text parse errors propagate. -/
def tokensToElements : List Token → Except String (List Element)
  | [] => .ok []
  | Token.sep _ :: rest => do
    let es ← tokensToElements rest
    .ok ({ type := ElementType.SEPARATOR } :: es)
  | Token.openB :: rest => do
    let es ← tokensToElements rest
    .ok ({ type := ElementType.OPEN_BRACKET } :: es)
  | Token.closeB :: rest => do
    let es ← tokensToElements rest
    .ok ({ type := ElementType.CLOSE_BRACKET } :: es)
  | Token.note v :: rest => do
    let n ← parseSingleNote v
    let es ← tokensToElements rest
    .ok ({ note := n } :: es)
  | Token.lyrics l :: Token.colon :: Token.note v :: rest => do
    let n ← parseSingleNote v
    let es ← tokensToElements rest
    .ok ({ lyrics := some l, note := n } :: es)
  | Token.lyrics l :: rest => do
    let es ← tokensToElements rest
    .ok ({ lyrics := some l } :: es)
  | Token.colon :: rest => tokensToElements rest

/- ## Beat grouping (SURParser._elements_to_beats) -/

/-- `create_beat`: a non-empty accumulator flushes as one beat holding its
NORMAL elements; an empty accumulator flushes nothing. -/
def mkBeat (elems : List Element) (bracketed : Bool) : List Beat :=
  if elems.isEmpty then []
  else [{ elements := elems.filter (fun e => e.type == ElementType.NORMAL),
          bracketed := bracketed }]

/-- The grouping loop of `_elements_to_beats`, with the accumulator for the
current unbracketed beat, the bracket buffer and the bracket flag as
explicit state.  The `last_was_separator` variable of the Python loop is
written but never read and is omitted. -/
def elementsToBeatsAux : List Element → List Element → List Element → Bool → List Beat
  | [], current, _, _ => mkBeat current false
  | e :: es, current, bracketBuf, inBracket =>
    match e.type with
    | ElementType.SEPARATOR =>
      if !inBracket && !current.isEmpty then
        mkBeat current false ++ elementsToBeatsAux es [] bracketBuf inBracket
      else
        elementsToBeatsAux es current bracketBuf inBracket
    | ElementType.OPEN_BRACKET =>
      mkBeat current false ++ elementsToBeatsAux es [] [] true
    | ElementType.CLOSE_BRACKET =>
      mkBeat bracketBuf true ++ elementsToBeatsAux es current [] false
    | ElementType.NORMAL =>
      if inBracket then
        elementsToBeatsAux es current (bracketBuf ++ [e]) inBracket
      else
        elementsToBeatsAux es (current ++ [e]) bracketBuf inBracket

/-- `SURParser._elements_to_beats`: never fails; a trailing unbracketed
accumulator flushes at end of stream, a pending bracket buffer does not. -/
def elementsToBeats (es : List Element) : List Beat :=
  elementsToBeatsAux es [] [] false

/-- `SURParser.parse_line`. -/
def parseLine (s : String) : Except String (List Beat) := do
  let elems ← tokensToElements (tokenize s)
  .ok (elementsToBeats elems)

/- ## File parsing (SURParser.parse_file and friends) -/

/-- Python `str.split(sep)` for a one-character separator: every occurrence
splits, empty parts are kept, the result is never empty. -/
def splitAtChar (c : Char) : List Char → List (List Char)
  | [] => [[]]
  | d :: ds =>
    if d = c then [] :: splitAtChar c ds
    else
      match splitAtChar c ds with
      | [] => [[d]]
      | h :: t => (d :: h) :: t

/-- Python `str.split(sep, 1)`: the text before and after the first
occurrence of `pat`, or `none` when `pat` does not occur (`pat in s` is
exactly `isSome`). -/
def splitFirstSeq (pat : List Char) : List Char → Option (List Char × List Char)
  | [] => none
  | c :: cs =>
    if pat.isPrefixOf (c :: cs) then some ([], (c :: cs).drop pat.length)
    else (splitFirstSeq pat cs).map (fun p => (c :: p.1, p.2))

/-- Python `str.strip('"')`: drop the maximal leading and trailing runs of
double quotes. -/
def stripQuotes (s : String) : String :=
  String.mk (((s.data.dropWhile (fun c => c == '"')).reverse.dropWhile
    (fun c => c == '"')).reverse)

/-- Ordered-dict insertion: an existing key is updated in place, a new key is
appended (Python `dict` assignment). -/
def dictInsert (k v : String) : List (String × String) → List (String × String)
  | [] => [(k, v)]
  | (k', v') :: rest =>
    if k' = k then (k, v) :: rest else (k', v') :: dictInsert k v rest

/-- `SURParser._parse_config`: each line of the stripped section that
contains `:` and is not a `//` comment becomes a `key -> value` entry, with
the value stripped of whitespace and surrounding quotes. -/
def parseConfig (s : String) : List (String × String) :=
  (splitAtChar '\n' (pyStrip s).data).foldl
    (fun md lineCs =>
      match splitFirstSeq [':'] lineCs with
      | some (k, v) =>
        if pyStartsWith (pyStrip (String.mk lineCs)) "//" then md
        else dictInsert (pyStrip (String.mk k)) (stripQuotes (pyStrip (String.mk v))) md
      | none => md)
    []

/-- `SURParser._parse_scale`: each line of the stripped section that contains
`->` and is not a `//` comment becomes a `note -> name` entry. -/
def parseScale (s : String) : List (String × String) :=
  (splitAtChar '\n' (pyStrip s).data).foldl
    (fun sc lineCs =>
      match splitFirstSeq ['-', '>'] lineCs with
      | some (k, v) =>
        if pyStartsWith (pyStrip (String.mk lineCs)) "//" then sc
        else dictInsert (pyStrip (String.mk k)) (pyStrip (String.mk v)) sc
      | none => sc)
    []

/-- Python `str.splitlines` for newline-separated text: no trailing empty
part for a trailing newline, and the empty string yields no lines. -/
def pySplitlines (s : String) : List String :=
  if s.data.isEmpty then []
  else
    let parts := splitAtChar '\n' s.data
    let parts := if s.data.getLast? = some '\n' then parts.dropLast else parts
    parts.map String.mk

/-- The beat-collecting loop of `SURParser._parse_section`: stripped lines
are parsed until a `#` line breaks, blank lines are skipped. -/
def collectBeats : List String → Except String (List Beat)
  | [] => .ok []
  | line :: rest =>
    let l := pyStrip line
    if pyStartsWith l "#" then .ok []
    else if l = "" then collectBeats rest
    else do
      let bs ← parseLine l
      let more ← collectBeats rest
      .ok (bs ++ more)

/-- `SURParser._parse_section`: `None` unless the first line starts with `#`;
the title is the rest of that line stripped. -/
def parseSection (lines : List String) : Except String (Option SurSection) :=
  match lines with
  | [] => .ok none
  | first :: rest =>
    if pyStartsWith first "#" then do
      let beats ← collectBeats rest
      .ok (some { title := pyStrip (String.mk (first.data.drop 1)), beats := beats })
    else .ok none

/-- The section-splitting loop of `SURParser.parse`, with the pending
`current_section_lines` accumulator as explicit state. -/
def parseCompAux : List String → List String → Except String (List SurSection)
  | [], accum =>
    if accum.isEmpty then .ok []
    else do
      let s ← parseSection accum
      .ok s.toList
  | line :: rest, accum =>
    if pyStartsWith line "#" && !accum.isEmpty then do
      let s ← parseSection accum
      let more ← parseCompAux rest [line]
      .ok (s.toList ++ more)
    else
      parseCompAux rest (accum ++ [line])

/-- `SURParser.parse`: split into lines and gather the sections. -/
def parseComposition (content : String) : Except String (List SurSection) :=
  parseCompAux (pySplitlines content) []

/-- `SURParser.parse_file`: split the content on `@`; fewer than three parts
is the Python `IndexError`; part 0 is metadata, part 1 the scale, part 2 the
composition, extra parts are ignored. -/
def parseFile (content : String) : Except String SURFile :=
  match splitAtChar '@' content.data with
  | s0 :: s1 :: s2 :: _ => do
    let comp ← parseComposition (String.mk s2)
    .ok { metadata := parseConfig (String.mk s0),
          scale := parseScale (String.mk s1),
          composition := comp }
  | _ => .error "list index out of range"

/- ## Taal table and composition builder (surmaker-cli.py) -/

/-- `TaalInfo.TAAL_PATTERNS`: name, beats, subdivision pattern. -/
def taalTable : List (String × Nat × String) :=
  [("teental", 16, "4+4+4+4"),
   ("jhaptaal", 10, "2+3+2+3"),
   ("ektaal", 12, "2+2+2+2+2+2"),
   ("rupak", 7, "3+2+2"),
   ("keherwa", 8, "4+4")]

/-- `TaalInfo.get_max_beats`: case-insensitive lookup, default 16. -/
def getMaxBeats (taal : String) : Nat :=
  match taalTable.find? (fun e => e.1 == pyLower taal) with
  | some e => e.2.1
  | none => 16

/-- `TaalInfo.get_pattern`: case-insensitive lookup, default `4+4+4+4`. -/
def getPattern (taal : String) : String :=
  match taalTable.find? (fun e => e.1 == pyLower taal) with
  | some e => e.2.2
  | none => "4+4+4+4"

/-- One `[beat_number, lyrics, notes]` entry of a builder row. -/
abbrev BeatEntry := Nat × String × String

/-- `CompositionBuilder` state. -/
structure Builder where
  currentBeat : Nat
  maxBeats : Nat
  taalPattern : String
  compositionLines : List (List BeatEntry)
  currentLine : List BeatEntry
  sectionHeaders : List (Nat × String)
  lastNote : Option String
  lastLyric : Option String
deriving DecidableEq, Repr

/-- `CompositionBuilder.__init__`. -/
def mkBuilder (taal : String) : Builder :=
  { currentBeat := 1,
    maxBeats := getMaxBeats taal,
    taalPattern := getPattern taal,
    compositionLines := [],
    currentLine := [],
    sectionHeaders := [],
    lastNote := none,
    lastLyric := none }

/-- `CompositionBuilder.finalize_line`: a non-empty current line is appended
to the rows and the beat counter resets; an empty one leaves the state
untouched. -/
def finalizeLine (b : Builder) : Builder :=
  if b.currentLine.isEmpty then b
  else
    { b with compositionLines := b.compositionLines ++ [b.currentLine],
             currentLine := [],
             currentBeat := 1 }

/-- Normalization of `add_beat` arguments: `None`, `""` and `"-"` all become
`"-"`. -/
def normStr : Option String → String
  | none => "-"
  | some s => if s = "" || s = "-" then "-" else s

/-- `CompositionBuilder.add_beat`: flush first when the counter is already
past the row width; a `"*"` note substitutes the remembered last note/lyric
(leaving them unchanged), any other call updates them; the normalized entry
is appended at the current index, and overflow after the increment flushes
the row and resets the counter to 1. -/
def addBeat (b : Builder) (lyrics notes : Option String) : Builder :=
  let b := if b.currentBeat > b.maxBeats then finalizeLine b else b
  let subst :=
    if notes = some "*" then (b.lastLyric, b.lastNote, b.lastNote, b.lastLyric)
    else (lyrics, notes, notes, lyrics)
  let b := { b with
    currentLine := b.currentLine ++ [(b.currentBeat, normStr subst.1, normStr subst.2.1)],
    currentBeat := b.currentBeat + 1,
    lastNote := subst.2.2.1,
    lastLyric := subst.2.2.2 }
  if b.currentBeat > b.maxBeats then { finalizeLine b with currentBeat := 1 } else b

/-- `CompositionBuilder.add_section_header`: record `(len(rows), text)`;
nothing is flushed and no other field changes. -/
def addSectionHeader (b : Builder) (header : String) : Builder :=
  { b with sectionHeaders := b.sectionHeaders ++ [(b.compositionLines.length, header)] }

/-- `addBeat` folded over a list of `(lyrics, notes)` inputs. -/
def addBeats (b : Builder) (inputs : List (Option String × Option String)) : Builder :=
  inputs.foldl (fun b p => addBeat b p.1 p.2) b

/- ## Rendering a built composition (get_formatted_composition) -/

/-- `all(len(n) == 1 for n in note.split())`. -/
def allLen1 (l : List String) : Bool := l.all (fun n => n.length == 1)

/-- The beat-formatting body of `get_formatted_composition`: lyric+note pairs
render `[note lyric]` (simple compound notes squeezed), bare lyrics render
as-is, bare notes have ` - ` squeezed to `-` and simple compounds squeezed,
and silent entries render `-`. -/
def formatBeatEntry : BeatEntry → String
  | (_, lyric, note) =>
    if lyric != "-" && note != "-" then
      let note :=
        if !pyContainsChar note ' ' && allLen1 (pySplitWs note) then pyReplace note " " ""
        else note
      "[" ++ note ++ " " ++ lyric ++ "]"
    else if lyric != "-" then lyric
    else if note != "-" then
      let note := if pyContainsChar note '-' then pyReplace note " - " "-" else note
      let note :=
        if pyContainsChar note ' ' && allLen1 (pySplitWs note) then pyReplace note " " ""
        else note
      note
    else "-"

/-- The header-emission step: a blank line is inserted unless the output is
empty or already ends in a `#` header line. -/
def emitHeader (acc : List String) (h : String) : List String :=
  match acc.getLast? with
  | none => acc ++ [h]
  | some l => if pyStartsWith l "#" then acc ++ [h] else acc ++ ["", h]

/-- The `while` loop consuming section headers anchored at row index `i`. -/
def takeHeaders (i : Nat) : List (Nat × String) → List String → List String × List (Nat × String)
  | [], acc => (acc, [])
  | (a, h) :: rest, acc =>
    if a = i then takeHeaders i rest (emitHeader acc h)
    else (acc, (a, h) :: rest)

/-- The row loop of `get_formatted_composition`: headers anchored at the
current index are emitted before the row's `b: ` line; headers anchored at
the total row count are emitted after the loop. -/
def formatRows : List (List BeatEntry) → Nat → List (Nat × String) → List String → List String
  | [], i, hdrs, acc => (takeHeaders i hdrs acc).1
  | row :: rest, i, hdrs, acc =>
    let p := takeHeaders i hdrs acc
    let acc := p.1 ++ ["b: " ++ joinSep " " (row.map formatBeatEntry)]
    formatRows rest (i + 1) p.2 acc

/-- `CompositionBuilder.get_formatted_composition`. -/
def getFormattedComposition (b : Builder) : List String :=
  let b := finalizeLine b
  formatRows b.compositionLines 0 b.sectionHeaders []

/- ## Loading a file in the generator (SURFileGenerator) -/

/-- The generator's `config` dict as a structure. -/
structure GenConfig where
  name : String
  raag : String
  taal : String
  beatsPerRow : Nat
  tempo : String
deriving DecidableEq, Repr

/-- `SURFileGenerator.__init__`'s config: raag/taal/tempo lowered, and
`beats_per_row or TaalInfo.get_max_beats(taal)` (Python `or`, so `None`
and `0` both fall back to the taal lookup). -/
def mkGenConfig (name raag taal tempo : String) (beatsPerRow : Option Nat) : GenConfig :=
  { name := name,
    raag := pyLower raag,
    taal := pyLower taal,
    beatsPerRow :=
      match beatsPerRow with
      | some n => if n = 0 then getMaxBeats taal else n
      | none => getMaxBeats taal,
    tempo := pyLower tempo }

/-- `re.search` driver for the metadata patterns: scan left to right for an
occurrence of the literal prefix `pat` whose following text satisfies the
capture, retrying at later occurrences on capture failure. -/
def reSearchAux {α : Type} (cap : List Char → Option α) (pat : List Char) :
    List Char → Option α
  | [] => none
  | c :: cs =>
    if pat.isPrefixOf (c :: cs) then
      match cap ((c :: cs).drop pat.length) with
      | some v => some v
      | none => reSearchAux cap pat cs
    else reSearchAux cap pat cs

/-- The capture `(.*?)"`: text up to the next quote on the same line,
requiring the closing quote (`.` does not match a newline). -/
def capQuoted (cs : List Char) : Option String :=
  let body := cs.takeWhile (fun c => c != '"' && c != '\n')
  match cs.drop body.length with
  | '"' :: _ => some (String.mk body)
  | _ => none

/-- Decimal digits to a natural number (Python `int`). -/
def digitsToNat (cs : List Char) : Nat :=
  cs.foldl (fun n c => n * 10 + (c.toNat - '0'.toNat)) 0

/-- The capture `(\d+)"`: a non-empty digit run followed by a quote. -/
def capDigits (cs : List Char) : Option Nat :=
  let body := cs.takeWhile Char.isDigit
  if body.isEmpty then none
  else
    match cs.drop body.length with
    | '"' :: _ => some (digitsToNat body)
    | _ => none

/-- `re.search(key: "(.*?)", content)` for the four string metadata keys. -/
def reSearchQuoted (key content : String) : Option String :=
  reSearchAux capQuoted (key ++ ": \"").data content.data

/-- `re.search(key: "(\d+)", content)` for `beats_per_row`. -/
def reSearchDigits (key content : String) : Option Nat :=
  reSearchAux capDigits (key ++ ": \"").data content.data

/-- The metadata phase of `SURFileGenerator.from_file`: all five of `name`,
`raag`, `taal`, `tempo` and `beats_per_row` must match or the load fails
with the missing-metadata `ValueError`; on success the generator config is
built from the captures. -/
def fromFileMeta (content : String) : Except String GenConfig :=
  match reSearchQuoted "name" content, reSearchQuoted "raag" content,
        reSearchQuoted "taal" content, reSearchQuoted "tempo" content,
        reSearchDigits "beats_per_row" content with
  | some n, some r, some t, some tp, some bp =>
    .ok (mkGenConfig n r t tp (some bp))
  | _, _, _, _, _ => .error "Missing required metadata in file"

/- ## Projections and example values used by the theorems -/

/-- The most recently recorded beat entry's `(lyrics, notes)` payload: the
last entry of the active row, or of the last flushed row when the active row
is empty. -/
def lastRecorded (b : Builder) : Option (String × String) :=
  match b.currentLine.getLast? with
  | some e => some e.2
  | none =>
    match b.compositionLines.getLast? with
    | some row => row.getLast?.map Prod.snd
    | none => none

/-- The row-structure shape of a builder: beat counter, the beat indices of
the active row, and the beat indices of each flushed row.  `addBeat` moves
the shape independently of the lyric/note payload. -/
abbrev RowShape := Nat × List Nat × List (List Nat)

/-- Shape projection of a builder state. -/
def rowShape (b : Builder) : RowShape :=
  (b.currentBeat, b.currentLine.map Prod.fst,
   b.compositionLines.map (fun r => r.map Prod.fst))

/-- `finalize_line` on shapes. -/
def finShapeStep : RowShape → RowShape
  | (cb, cur, rows) => if cur.isEmpty then (cb, cur, rows) else (1, [], rows ++ [cur])

/-- `add_beat` on shapes: pre-flush when past the row width, append the
current index, increment, post-flush with reset on overflow. -/
def shapeStep (maxBeats : Nat) (sh : RowShape) : RowShape :=
  let sh := if sh.1 > maxBeats then finShapeStep sh else sh
  let sh2 : RowShape := (sh.1 + 1, sh.2.1 ++ [sh.1], sh.2.2)
  if sh2.1 > maxBeats then
    let f := finShapeStep sh2
    (1, f.2.1, f.2.2)
  else sh2

/-- A file text whose three `@`-separated blocks parse successfully. -/
def exText1 : String := "name: x\n@\nS -> Sa\n@\n#T\nS"

/-- The composition `parse_file` produces for `exText1`. -/
def exFile1 : SURFile :=
  { metadata := [("name", "x")],
    scale := [("S", "Sa")],
    composition := [{ title := "T",
                      beats := [{ elements := [{ note := some { pitch := .S } }] }] }] }

/-- A single-element beat carrying the `bracketed` flag. -/
def exBeat2 : Beat :=
  { elements := [{ note := some { pitch := .S } }], bracketed := true }

/-- The element sequence the parser builds for the line `[sa S` after the
opening bracket: the lyric `sa`, a separator, and the note `S`. -/
def exElems3 : List Element :=
  [{ lyrics := some "sa" },
   { type := ElementType.SEPARATOR },
   { note := some { pitch := .S } }]

/-- A file with non-empty metadata and scale and one titled section. -/
def exFile4 : SURFile :=
  { metadata := [("name", "Test")],
    scale := [("S", "Sa")],
    composition := [{ title := "T" }] }

/-- File content carrying `name`, `raag`, `taal` and `tempo` metadata but no
`beats_per_row` entry. -/
def exContent5 : String :=
  "name: \"x\"\nraag: \"y\"\ntaal: \"teental\"\ntempo: \"madhya\"\n"

/-- A fresh teental builder after one `addBeat(\"sa\", \"S\")` and one
`addSectionHeader(\"#X\")`, in that order. -/
def exBuilder6 : Builder :=
  addSectionHeader (addBeat (mkBuilder "teental") (some "sa") (some "S")) "#X"

deriving instance DecidableEq for Except

/- ## Helper lemmas -/

/-- Splitting on a character that does not occur returns the whole input as
the single part. -/
theorem splitAtChar_of_not_mem {c : Char} :
    ∀ {cs : List Char}, c ∉ cs → splitAtChar c cs = [cs]
  | [], _ => rfl
  | d :: ds, h => by
    have hd : d ≠ c := fun hdc => h (hdc ▸ List.mem_cons_self d ds)
    have ht : c ∉ ds := fun hm => h (List.mem_cons_of_mem d hm)
    unfold splitAtChar
    rw [if_neg hd, splitAtChar_of_not_mem ht]

/-- Once bracket mode is open, a close-bracket-free remainder of the element
stream produces no further beats: everything is buffered and then dropped. -/
theorem e2bAux_inBracket_noclose :
    ∀ (es : List Element) (buf : List Element),
      (∀ e ∈ es, e.type ≠ ElementType.CLOSE_BRACKET) →
      elementsToBeatsAux es [] buf true = []
  | [], _, _ => by simp [elementsToBeatsAux, mkBeat]
  | e :: es, buf, h => by
    have he : e.type ≠ ElementType.CLOSE_BRACKET := h e (List.mem_cons_self e es)
    have ht : ∀ x ∈ es, x.type ≠ ElementType.CLOSE_BRACKET :=
      fun x hx => h x (List.mem_cons_of_mem e hx)
    unfold elementsToBeatsAux
    match hty : e.type with
    | ElementType.SEPARATOR => simp [e2bAux_inBracket_noclose es buf ht]
    | ElementType.OPEN_BRACKET => simp [mkBeat, e2bAux_inBracket_noclose es [] ht]
    | ElementType.CLOSE_BRACKET => exact absurd hty he
    | ElementType.NORMAL => simp [e2bAux_inBracket_noclose es (buf ++ [e]) ht]

/-- Any string with at least two characters fails the `NotePitch` enum
lookup: every enum value is a single character. -/
theorem pitchOfString_eq_none (s : String) (h : 2 ≤ s.data.length) :
    pitchOfString s = none := by
  have hne : ∀ t : String, t.data.length = 1 → s ≠ t := by
    intro t ht hst
    rw [hst, ht] at h
    omega
  unfold pitchOfString
  rw [if_neg (hne "S" rfl), if_neg (hne "R" rfl), if_neg (hne "G" rfl),
      if_neg (hne "M" rfl), if_neg (hne "P" rfl), if_neg (hne "D" rfl),
      if_neg (hne "N" rfl), if_neg (hne "-" rfl), if_neg (hne "*" rfl)]

/-- `finalize_line` does not touch the sustain memory or the row width. -/
theorem finalizeLine_fields (b : Builder) :
    (finalizeLine b).lastNote = b.lastNote ∧
    (finalizeLine b).lastLyric = b.lastLyric ∧
    (finalizeLine b).maxBeats = b.maxBeats := by
  unfold finalizeLine
  split <;> simp


/-- `String.mk` is the inverse of `String.data`. -/
theorem data_mk (l : List Char) : (String.mk l).data = l := rfl

/-- `add_beat` leaves the row width unchanged. -/
theorem addBeat_maxBeats (b : Builder) (l n : Option String) :
    (addBeat b l n).maxBeats = b.maxBeats := by
  simp only [addBeat, finalizeLine]
  split_ifs <;> simp_all

/-- The sustain memory after `add_beat`: a `"*"` note leaves it unchanged,
any other call overwrites it with the raw note argument. -/
theorem addBeat_lastNote (b : Builder) (l n : Option String) :
    (addBeat b l n).lastNote = if n = some "*" then b.lastNote else n := by
  simp only [addBeat, finalizeLine]
  split_ifs <;> simp_all

/-- The sustain memory after `add_beat`: a `"*"` note leaves it unchanged,
any other call overwrites it with the raw lyric argument. -/
theorem addBeat_lastLyric (b : Builder) (l n : Option String) :
    (addBeat b l n).lastLyric = if n = some "*" then b.lastLyric else l := by
  simp only [addBeat, finalizeLine]
  split_ifs <;> simp_all

/-- The entry recorded by `add_beat`: the normalized arguments, with the
remembered last lyric/note substituted on a `"*"` note. -/
theorem addBeat_lastRecorded (b : Builder) (l n : Option String) :
    lastRecorded (addBeat b l n) =
      some (normStr (if n = some "*" then b.lastLyric else l),
            normStr (if n = some "*" then b.lastNote else n)) := by
  simp only [addBeat, finalizeLine, lastRecorded]
  split_ifs <;> simp_all [List.getLast?_concat]

/-- `add_beat` moves the row shape by `shapeStep`, independently of the
lyric/note payload. -/
theorem rowShape_addBeat (b : Builder) (l n : Option String) :
    rowShape (addBeat b l n) = shapeStep b.maxBeats (rowShape b) := by
  simp only [addBeat, finalizeLine, rowShape, shapeStep, finShapeStep]
  split_ifs <;> simp_all [List.getLast?_concat]

/- ## Claims -/

/-- C1 (counterexample): the round-trip `parse(render(parse(text))) ==
parse(text)` fails: `exText1` parses successfully, but rendering the parsed
file and parsing again does not give the same result (it fails outright). -/
theorem C1_roundtrip_counterexample :
    parseFile exText1 = .ok exFile1 ∧
    parseFile (surFileStr exFile1) ≠ parseFile exText1 :=
  ⟨by decide, by decide⟩

/-- C1 (amended): `SURFile.__str__` renders only the composition block, with
no metadata block, no scale block and no `@` delimiters, so whenever the
rendered text contains no `@` at all, re-parsing it with `parse_file` fails
with the index error instead of round-tripping. -/
theorem C1_render_not_reparsable (f : SURFile)
    (h : '@' ∉ (surFileStr f).data) :
    parseFile (surFileStr f) = .error "list index out of range" := by
  unfold parseFile
  rw [splitAtChar_of_not_mem h]

/-- Witness for C1: the rendered form of `exFile1` contains no `@` and fails
to re-parse. -/
theorem C1_render_not_reparsable_witness :
    '@' ∉ (surFileStr exFile1).data ∧
    parseFile (surFileStr exFile1) = .error "list index out of range" :=
  ⟨by decide, C1_render_not_reparsable exFile1 (by decide)⟩

/-- C2 (counterexample): a bracketed beat with a single element renders as
the bare element string, not wrapped in `[...]`. -/
theorem C2_bracket_lost_counterexample :
    exBeat2.bracketed = true ∧ beatStr exBeat2 = "S" ∧
    pyStartsWith (beatStr exBeat2) "[" = false :=
  ⟨rfl, by decide, by decide⟩

/-- C2 (amended): a beat with more than one element renders space-joined and
wrapped in `[...]` when `bracketed = true`, and concatenated with no internal
separator and no brackets when `bracketed = false`; a single-element beat
renders as that element's own text regardless of the `bracketed` flag. -/
theorem C2_beat_render (e e1 e2 : Element) (rest : List Element) :
    beatStr { elements := [e], bracketed := true } = elementStr e ∧
    beatStr { elements := e1 :: e2 :: rest, bracketed := true } =
      "[" ++ joinSep " "
        (((e1 :: e2 :: rest).map elementStr).filter (fun s => s != "")) ++ "]" ∧
    beatStr { elements := e1 :: e2 :: rest, bracketed := false } =
      joinSep "" (((e1 :: e2 :: rest).map elementStr).filter (fun s => s != "")) :=
  ⟨rfl, rfl, rfl⟩

/-- C3 (counterexample): the unterminated bracket line `[sa S` does not fail
with any error; it parses to an (empty) beat list. -/
theorem C3_unbalanced_counterexample :
    parseLine "[sa S" = .ok [] := by decide

/-- C3 (amended): beat grouping never fails on unbalanced brackets: once a
bracket is opened, a close-bracket-free rest of the stream produces no beats
at all - the buffered elements are silently discarded at end of stream. -/
theorem C3_unbalanced_never_fails (es : List Element)
    (h : ∀ e ∈ es, e.type ≠ ElementType.CLOSE_BRACKET) :
    elementsToBeats ({ type := ElementType.OPEN_BRACKET } :: es) = [] := by
  unfold elementsToBeats elementsToBeatsAux
  simp only [mkBeat, List.isEmpty_nil, if_true, List.nil_append]
  exact e2bAux_inBracket_noclose es [] h

/-- Witness for C3: the elements of `[sa S` after the opening bracket. -/
theorem C3_unbalanced_never_fails_witness :
    (∀ e ∈ exElems3, e.type ≠ ElementType.CLOSE_BRACKET) ∧
    elementsToBeats ({ type := ElementType.OPEN_BRACKET } :: exElems3) = [] :=
  ⟨by decide, C3_unbalanced_never_fails exElems3 (by decide)⟩

/-- C4 (counterexample): `exFile4` has non-empty metadata and scale, yet its
rendered text is just the section block, without the metadata line. -/
theorem C4_metadata_not_rendered_counterexample :
    exFile4.metadata = [("name", "Test")] ∧ exFile4.scale = [("S", "Sa")] ∧
    surFileStr exFile4 = "#T\n" ∧
    ¬ "name".data <:+: (surFileStr exFile4).data :=
  ⟨rfl, rfl, by decide, by decide⟩

/-- C4 (amended): the serializer emits only the composition block - the
output is independent of the metadata and scale mappings - and each section
renders as the `#` title marker plus title, a newline, and the beats joined
by single spaces. -/
theorem C4_render_composition_only (m sc : List (String × String))
    (comp : List SurSection) (t : String) (bs : List Beat) :
    surFileStr { metadata := m, scale := sc, composition := comp } =
      surFileStr { metadata := [], scale := [], composition := comp } ∧
    sectionStr { title := t, beats := bs } =
      "#" ++ t ++ "\n" ++ joinSep " " (bs.map beatStr) :=
  ⟨rfl, rfl⟩

/-- C5 (counterexample): `exContent5` carries `name`, `raag`, `taal` and
`tempo` but no `beats_per_row`, and loading it fails with the
missing-metadata error rather than deriving the row width from the taal. -/
theorem C5_bpr_optional_counterexample :
    reSearchQuoted "name" exContent5 = some "x" ∧
    reSearchQuoted "raag" exContent5 = some "y" ∧
    reSearchQuoted "taal" exContent5 = some "teental" ∧
    reSearchQuoted "tempo" exContent5 = some "madhya" ∧
    reSearchDigits "beats_per_row" exContent5 = none ∧
    fromFileMeta exContent5 = .error "Missing required metadata in file" :=
  ⟨by decide, by decide, by decide, by decide, by decide, by decide⟩

/-- C5 (amended): on load, `from_file` requires `beats_per_row` exactly like
the other four keys and fails whenever it is absent; the taal-derived
default (case-insensitive lookup, unknown taal names giving 16) applies only
in the constructor, when no `beats_per_row` argument is supplied. -/
theorem C5_bpr_required (content : String)
    (h : reSearchDigits "beats_per_row" content = none) :
    fromFileMeta content = .error "Missing required metadata in file" ∧
    (∀ name raag tempo : String,
      (mkGenConfig name raag "Teental" tempo none).beatsPerRow = 16) ∧
    getMaxBeats "JHAPTAAL" = 10 ∧ getMaxBeats "unknowntaal" = 16 := by
  refine ⟨?_, ?_, by decide, by decide⟩
  · unfold fromFileMeta
    rw [h]
    rcases reSearchQuoted "name" content with _ | n <;>
      rcases reSearchQuoted "raag" content with _ | r <;>
        rcases reSearchQuoted "taal" content with _ | t <;>
          rcases reSearchQuoted "tempo" content with _ | tp <;> rfl
  · intro _ _ _
    show getMaxBeats "Teental" = 16
    decide

/-- Witness for C5: `exContent5` has no `beats_per_row` entry. -/
theorem C5_bpr_required_witness :
    reSearchDigits "beats_per_row" exContent5 = none ∧
    fromFileMeta exContent5 = .error "Missing required metadata in file" :=
  ⟨by decide, (C5_bpr_required exContent5 (by decide)).1⟩

/-- C6 (counterexample): a beat added before `add_section_header` but still
pending in the active row is rendered after the header: the builder that ran
`addBeat("sa", "S")` then `addSectionHeader("#X")` renders the header line
first and the beat line below it. -/
theorem C6_header_order_counterexample :
    (addBeat (mkBuilder "teental") (some "sa") (some "S")).currentLine =
      [(1, "sa", "S")] ∧
    getFormattedComposition exBuilder6 = ["#X", "b: [S sa]"] :=
  ⟨by decide, by decide⟩

/-- C6 (amended): `add_section_header` does not flush the pending active
row: it records `(len(rows), text)` and leaves every other field - in
particular the active row and the flushed rows - unchanged, so pending
beats later flush into the row at that same index and render after the
header. -/
theorem C6_header_no_flush (b : Builder) (h : String) :
    (addSectionHeader b h).currentLine = b.currentLine ∧
    (addSectionHeader b h).compositionLines = b.compositionLines ∧
    (addSectionHeader b h).currentBeat = b.currentBeat ∧
    (addSectionHeader b h).sectionHeaders =
      b.sectionHeaders ++ [(b.compositionLines.length, h)] :=
  ⟨rfl, rfl, rfl, rfl⟩

/-- C7: after `addBeat("sa", "S")`, a following `addBeat(None, "*")` records
the entry `("sa", "S")`, identical in lyric and note to the entry the first
call recorded, and leaves the remembered last note and last lyric unchanged
(they stay `"S"` and `"sa"`). -/
theorem C7_sustain_expansion (b : Builder) :
    lastRecorded (addBeat b (some "sa") (some "S")) = some ("sa", "S") ∧
    (addBeat b (some "sa") (some "S")).lastNote = some "S" ∧
    (addBeat b (some "sa") (some "S")).lastLyric = some "sa" ∧
    lastRecorded (addBeat (addBeat b (some "sa") (some "S")) none (some "*")) =
      some ("sa", "S") ∧
    (addBeat (addBeat b (some "sa") (some "S")) none (some "*")).lastNote =
      some "S" ∧
    (addBeat (addBeat b (some "sa") (some "S")) none (some "*")).lastLyric =
      some "sa" := by
  simp [addBeat_lastRecorded, addBeat_lastNote, addBeat_lastLyric, normStr]

set_option maxRecDepth 4000 in
/-- C8: on a fresh teental builder (row width 16), whatever the seventeen
`addBeat` inputs are, the first sixteen entries flush as one row with beat
indices 1..16, the seventeenth entry starts the new active row with index 1,
and the counter stands at 2. -/
theorem C8_row_wrap (p1 p2 p3 p4 p5 p6 p7 p8 p9 p10 p11 p12 p13 p14 p15 p16 p17 :
    Option String × Option String) :
    rowShape (addBeats (mkBuilder "teental")
      [p1, p2, p3, p4, p5, p6, p7, p8, p9, p10, p11, p12, p13, p14, p15, p16, p17]) =
    (2, [1], [[1, 2, 3, 4, 5, 6, 7, 8, 9, 10, 11, 12, 13, 14, 15, 16]]) := by
  simp only [addBeats, List.foldl, rowShape_addBeat, addBeat_maxBeats]
  decide

/-- C9: a one-character line holding a bare pitch letter tokenizes as a NOTE
token, never as a LYRIC token, even though the bare-word alternative of the
combined pattern would also match it - the fixed priority order decides. -/
theorem C9_note_priority (c : Char) (h : c ∈ pitchChars) :
    tokenize (String.mk [c]) = [Token.note (String.mk [c])] ∧
    matchMixed [c] = some (Token.lyrics (String.mk [c]), []) := by
  fin_cases h <;> exact ⟨by decide, by decide⟩

/-- Witness for C9: the literal text `S`. -/
theorem C9_note_priority_witness :
    'S' ∈ pitchChars ∧ tokenize (String.mk ['S']) = [Token.note (String.mk ['S'])] :=
  ⟨by decide, (C9_note_priority 'S' (by decide)).1⟩

/-- C10: a note token carrying a leading lower-octave marker is accepted by
the scanner but rejected by the note parser: stripping only trailing octave
marks leaves the leading marker in place, so the pitch lookup fails - any
marker run before a pitch letter gives the invalid-pitch error, and the
lines `.S` and `,S` fail to parse. -/
theorem C10_leading_marker_rejected :
    (∀ (pre : List Char) (p : Char), pre ≠ [] →
      (∀ c ∈ pre, c = '.' ∨ c = ',') → p ∈ pitchChars →
      parseSingleNote (String.mk (pre ++ [p])) =
        .error ("Invalid note pitch: " ++ String.mk (pre ++ [p]))) ∧
    parseLine ".S" = .error "Invalid note pitch: .S" ∧
    parseLine ",S" = .error "Invalid note pitch: ,S" := by
  refine ⟨?_, by decide, by decide⟩
  intro pre p hne hmark hp
  have hlen2 : 2 ≤ (String.mk (pre ++ [p])).data.length := by
    show 2 ≤ (pre ++ [p]).length
    cases pre with
    | nil => exact absurd rfl hne
    | cons a t => simp
  have hneT : ∀ t : String, t.data.length < 2 → String.mk (pre ++ [p]) ≠ t := by
    intro t ht hEq
    rw [hEq] at hlen2
    omega
  have hq : (p == '\'') = false := by fin_cases hp <;> rfl
  have hc : (p == ',') = false := by fin_cases hp <;> rfl
  have hrev : (pre ++ [p]).reverse = p :: pre.reverse := by
    simp
  have hdrop1 : (p :: pre.reverse).dropWhile (fun c => c == '\'') = p :: pre.reverse := by
    simp [List.dropWhile_cons, hq]
  have hdrop2 : (p :: pre.reverse).dropWhile (fun c => c == ',') = p :: pre.reverse := by
    simp [List.dropWhile_cons, hc]
  simp only [parseSingleNote, data_mk, if_neg (hneT "" (by decide)),
    if_neg (hneT "-" (by decide)), if_neg (hneT "*" (by decide)), hrev,
    hdrop1, hdrop2, List.reverse_cons, List.reverse_reverse]
  rw [pitchOfString_eq_none _ hlen2]

/-- Witness for C10: the token `.S`. -/
theorem C10_leading_marker_rejected_witness :
    ((['.'] : List Char) ≠ []) ∧
    parseSingleNote (String.mk (['.'] ++ ['S'])) =
      .error ("Invalid note pitch: " ++ String.mk (['.'] ++ ['S'])) :=
  ⟨by decide,
   C10_leading_marker_rejected.1 ['.'] 'S' (by decide) (by decide) (by decide)⟩
